import Mathlib

/-
Shallow embedding of rmf_demos_fleet_adapter/fleet_manager.py.

Conventions:
- Python floats are modelled as exact rationals (ℚ) for stored data; the
  derived arrival-time arithmetic (sqrt, pi) is modelled over ℝ.
- Python exceptions are modelled with Except PyErr; a fallible handler or
  endpoint returns .error when the Python code would raise.
- The robot table (a Python dict mutated in place) is modelled as an
  association list threaded functionally; every mutation of a robot record
  becomes an aupdate of an existing key (the code never inserts new robots
  after construction).
- ROS publishers are modelled by returning the list of messages published
  on each channel during the call.
-/

namespace RmfDemos

/-- Modes from rmf_fleet_msgs/RobotMode. -/
def MODE_IDLE : Nat := 0

def MODE_CHARGING : Nat := 1

def MODE_MOVING : Nat := 2

def MODE_PAUSED : Nat := 3

def MODE_WAITING : Nat := 4

def MODE_EMERGENCY : Nat := 5

def MODE_GOING_HOME : Nat := 6

def MODE_DOCKING : Nat := 7

def MODE_ADAPTER_ERROR : Nat := 8

def MODE_CLEANING : Nat := 9

def MODE_PERFORMING_ACTION : Nat := 10

def MODE_ACTION_COMPLETED : Nat := 11

/-- Python exceptions that the modelled code can raise. -/
inductive PyErr where
  | typeError
  | keyError
  | attributeError
  | valueError
deriving DecidableEq, Repr

/-- builtin_interfaces/Time. -/
structure Time where
  sec : Int := 0
  nanosec : Nat := 0
deriving DecidableEq, Repr

/-- rmf_fleet_msgs/Location.  level_name is Option String so the Python
None that `navigate` can assign from dest.map_name is representable. -/
structure Location where
  t : Time := {}
  x : ℚ := 0
  y : ℚ := 0
  yaw : ℚ := 0
  level_name : Option String := none
  obey_approach_speed_limit : Bool := false
  approach_speed_limit : ℚ := 0
deriving DecidableEq, Repr

/-- rmf_fleet_msgs/RobotMode. -/
structure RobotModeMsg where
  mode : Nat := 0
  mode_request_id : Int := 0
  performing_action : String := ""
deriving DecidableEq, Repr

/-- rmf_fleet_msgs/RobotState (the fields the code reads). -/
structure RobotStateMsg where
  name : String := ""
  model : String := ""
  task_id : String := ""
  mode : RobotModeMsg := {}
  battery_percent : ℚ := 0
  location : Location := {}
  path : List Location := []
deriving DecidableEq, Repr

/-- rmf_fleet_msgs/PathRequest. -/
structure PathRequest where
  fleet_name : String := ""
  robot_name : String := ""
  path : List Location := []
  task_id : String := ""
deriving DecidableEq, Repr

/-- rmf_fleet_msgs/ModeRequest (the fields the code writes). -/
structure ModeRequestMsg where
  fleet_name : String := ""
  robot_name : String := ""
  mode : RobotModeMsg := {}
deriving DecidableEq, Repr

/-- The pydantic Request body.  destination is an optional dict, modelled
as an association list of string keys to rational values. -/
structure Request where
  map_name : Option String := none
  activity : Option String := none
  label : Option String := none
  destination : Option (List (String × ℚ)) := none
  speed_limit : Option ℚ := none
  toggle : Option Bool := none
deriving DecidableEq, Repr

/-- The {success, msg} part of the HTTP Response body. -/
structure Resp where
  success : Bool
  msg : String
deriving DecidableEq, Repr

/-- The default failure response dict built at the top of each endpoint. -/
def failResp : Resp := ⟨false, ""⟩

/-- The response after the endpoint sets success to True. -/
def okResp : Resp := ⟨true, ""⟩

/-- Per-robot record (class State in the source). -/
structure State where
  state : Option RobotStateMsg := none
  destination : Option Location := none
  last_path_request : Option PathRequest := none
  last_completed_request : Option Int := none
  perform_action_mode : Bool := false
  gps_pos : ℚ × ℚ := (0, 0)
deriving DecidableEq, Repr

/-- State() as constructed for each robot in FleetManager.__init__. -/
def State.init : State := {}

/-- State.is_expected_task_id from the source. -/
def State.is_expected_task_id (robot : State) (task_id : String) : Bool :=
  match robot.last_path_request with
  | some pr => if task_id ≠ pr.task_id then false else true
  | none => true

/-- A named activity path from the fleet_manager config
(action_paths[activity][label] = \x7bmap_name, path\x7d). -/
structure ActivityPath where
  map_name : String := ""
  path : List (ℚ × ℚ × ℚ) := []
deriving DecidableEq, Repr

/-- FleetManager fields the modelled operations read or write.  docks is
an Option because FleetManager.__init__ never initializes self.docks: the
attribute does not exist (none) until something assigns it, and
dock_summary_cb reading it while absent is an AttributeError. -/
structure FleetManager where
  debug : Bool := false
  fleet_name : String
  robots : List (String × State)
  action_paths : List (String × List (String × ActivityPath)) := []
  docks : Option (List (String × List Location)) := none
  gps : Bool := false
  offset : ℚ × ℚ := (0, 0)
  ignore_speed_limit : Bool := false
  linear_velocity : ℚ
  rotational_velocity : ℚ
deriving DecidableEq, Repr

/-- FleetManager.__init__: one fresh State per configured robot; docks
left uninitialized. -/
def FleetManager.init (fleet_name : String) (roster : List String)
    (lv rv : ℚ) : FleetManager :=
  { fleet_name := fleet_name
    robots := roster.map (fun n => (n, State.init))
    linear_velocity := lv
    rotational_velocity := rv }

/-- Dict lookup on an association list (Python d.get / `in`). -/
def alookup {α : Type} : List (String × α) → String → Option α
  | [], _ => none
  | (k, v) :: rest, n => if k = n then some v else alookup rest n

/-- Replace the value stored under an existing key (in-place mutation of
the object held in a Python dict). -/
def aupdate {α : Type} : List (String × α) → String → α → List (String × α)
  | [], _, _ => []
  | (k, v) :: rest, n, w =>
      if k = n then (k, w) :: aupdate rest n w else (k, v) :: aupdate rest n w

/-- Dict item assignment: replace if present, append if absent
(Python d[k] = v). -/
def dset {α : Type} (l : List (String × α)) (k : String) (v : α) :
    List (String × α) :=
  if (alookup l k).isSome then aupdate l k v else l ++ [(k, v)]

theorem alookup_aupdate {α : Type} (l : List (String × α)) (n : String)
    (v : α) (r : α) (h : alookup l n = some r) :
    alookup (aupdate l n v) n = some v := by
  induction l with
  | nil => simp [alookup] at h
  | cons p rest ih =>
    obtain ⟨k, w⟩ := p
    by_cases hk : k = n
    · simp [alookup, aupdate, hk]
    · simp [alookup, aupdate, hk] at h ⊢
      exact ih h

theorem aupdate_aupdate {α : Type} (l : List (String × α)) (n : String)
    (v w : α) : aupdate (aupdate l n v) n w = aupdate l n w := by
  induction l with
  | nil => simp [aupdate]
  | cons p rest ih =>
    obtain ⟨k, u⟩ := p
    by_cases hk : k = n
    · simp [aupdate, hk, ih]
    · simp [aupdate, hk, ih]

/-- str.isdigit() on a Python string. -/
def isdigitStr (s : String) : Bool := !s.data.isEmpty && s.data.all Char.isDigit

/-- Value of an all-digit string (the int() call on a digit-only string). -/
def digitsVal (s : String) : Nat :=
  s.data.foldl (fun a c => 10 * a + (c.toNat - 48)) 0

/-- Python int() applied to an optionally-signed decimal string: some on
success, none when int() would raise ValueError. -/
def pyInt? (s : String) : Option Int :=
  match s.data with
  | '-' :: rest =>
      if rest ≠ [] ∧ rest.all Char.isDigit then
        some (-(rest.foldl (fun a c => 10 * a + (c.toNat - 48)) 0 : Nat))
      else none
  | l =>
      if l ≠ [] ∧ l.all Char.isDigit then
        some ((l.foldl (fun a c => 10 * a + (c.toNat - 48)) 0 : Nat))
      else none

/-- Truthiness of an Optional[bool] (Python `if mode.toggle`). -/
def pyTruthy : Option Bool → Bool
  | some b => b
  | none => false

/-- Everything observable from one call of FleetManager.robot_state_cb:
the updated manager, the messages published on each channel during the
call, and the edge-triggered newly-completed detection (the guard around
the debug print at the end of the callback). -/
structure CbOut where
  fm : FleetManager
  path_pubs : List PathRequest
  mode_pubs : List ModeRequestMsg
  action_pubs : List ModeRequestMsg
  newly_completed : Option Int
deriving DecidableEq, Repr

/-- FleetManager.robot_state_cb.  The callback touches only path_pub;
mode_pub and action_completed_pub are never used here, hence those
channels are always empty in the result. -/
def robot_state_cb (fm : FleetManager) (msg : RobotStateMsg) : CbOut :=
  match alookup fm.robots msg.name with
  | none => ⟨fm, [], [], [], none⟩
  | some robot =>
    if robot.is_expected_task_id msg.task_id = false
        ∧ robot.perform_action_mode = false then
      -- Out-of-date message: disregard it, republish the last request.
      match robot.last_path_request with
      | some pr => ⟨fm, [pr], [], [], none⟩
      | none => ⟨fm, [], [], [], none⟩
    else
      let robot1 : State := { robot with state := some msg }
      if (msg.mode.mode = MODE_IDLE ∨ msg.mode.mode = MODE_CHARGING)
          ∧ msg.path = [] ∧ msg.task_id ≠ "" ∧ isdigitStr msg.task_id = true then
        let c : Int := (digitsVal msg.task_id : Nat)
        let robot2 : State :=
          { robot1 with destination := none, last_completed_request := some c }
        ⟨{ fm with robots := aupdate fm.robots msg.name robot2 }, [], [], [],
          if robot1.last_completed_request ≠ some c then some c else none⟩
      else
        ⟨{ fm with robots := aupdate fm.robots msg.name robot1 }, [], [], [], none⟩

/-- FleetManager.disp: planar Euclidean distance. -/
noncomputable def disp (a b : ℚ × ℚ) : ℝ :=
  Real.sqrt (((a.1 : ℝ) - (b.1 : ℝ)) ^ 2 + ((a.2 : ℝ) - (b.2 : ℝ)) ^ 2)

/-- Python int() applied to a real number: truncation toward zero. -/
noncomputable def pyTrunc (x : ℝ) : Int := if 0 ≤ x then ⌊x⌋ else ⌈x⌉

/-- FleetManager._make_mode_request. -/
def make_mode_request (fm : FleetManager) (robot_name : String) (cmd_id : Int)
    (mode : Nat) (action : String) : ModeRequestMsg :=
  { fleet_name := fm.fleet_name
    robot_name := robot_name
    mode := { mode := mode, mode_request_id := cmd_id,
              performing_action := action } }

/-- The navigate endpoint.  Mirrors the Python evaluation order:
the short-circuit membership test, then len(dest.destination) which is a
TypeError when the destination is None, then the coordinate key lookups
(KeyError when absent), then robot.state.location which is an
AttributeError while robot.state is still None. -/
noncomputable def navigate (fm : FleetManager) (robot_name : String)
    (cmd_id : Int) (dest : Request) (now : Time) :
    Except PyErr (Resp × FleetManager × List PathRequest) :=
  match alookup fm.robots robot_name with
  | none => .ok (failResp, fm, [])
  | some robot =>
    match dest.destination with
    | none => .error .typeError
    | some d =>
      if d.length < 1 then .ok (failResp, fm, [])
      else
        match alookup d "x" with
        | none => .error .keyError
        | some tx =>
        match alookup d "y" with
        | none => .error .keyError
        | some ty =>
        match alookup d "yaw" with
        | none => .error .keyError
        | some target_yaw =>
          let target_speed_limit : Option ℚ :=
            if fm.ignore_speed_limit then none else dest.speed_limit
          let target_x : ℚ := tx - fm.offset.1
          let target_y : ℚ := ty - fm.offset.2
          match robot.state with
          | none => .error .attributeError
          | some st =>
            let cur := st.location
            let dr : ℝ := disp (target_x, target_y) (cur.x, cur.y)
            let duration : Int :=
              pyTrunc (dr / (fm.linear_velocity : ℝ)) +
                pyTrunc (((|(|cur.yaw| - |target_yaw|)| : ℚ) : ℝ) /
                  (fm.rotational_velocity : ℝ))
            let obey : Bool × ℚ :=
              match target_speed_limit with
              | some s => if s > 0 then (true, s) else (false, 0)
              | none => (false, 0)
            let target_loc : Location :=
              { t := { now with sec := now.sec + duration }
                x := target_x
                y := target_y
                yaw := target_yaw
                level_name := dest.map_name
                obey_approach_speed_limit := obey.1
                approach_speed_limit := obey.2 }
            let path_request : PathRequest :=
              { fleet_name := fm.fleet_name
                robot_name := robot_name
                path := [cur, target_loc]
                task_id := toString cmd_id }
            let robot1 : State :=
              { robot with last_path_request := some path_request
                           destination := some target_loc }
            .ok (okResp,
                 { fm with robots := aupdate fm.robots robot_name robot1 },
                 [path_request])

/-- The stop_robot endpoint.  robot.state.location raises while the robot
has not reported yet. -/
def stop (fm : FleetManager) (robot_name : String)
    (running_cmd_id stop_cmd_id : Int) :
    Except PyErr (Resp × FleetManager × List PathRequest) :=
  match alookup fm.robots robot_name with
  | none => .ok (failResp, fm, [])
  | some robot =>
    match robot.state with
    | none => .error .attributeError
    | some st =>
      let path_request : PathRequest :=
        { fleet_name := fm.fleet_name
          robot_name := robot_name
          path := [st.location, st.location]
          task_id := toString stop_cmd_id }
      let robot1 : State :=
        { robot with last_path_request := some path_request
                     destination := none }
      .ok (okResp,
           { fm with robots := aupdate fm.robots robot_name robot1 },
           [path_request])

/-- The start_activity endpoint. -/
def start_activity (fm : FleetManager) (robot_name : String) (cmd_id : Int)
    (request : Request) :
    Except PyErr (Resp × FleetManager × List PathRequest) :=
  let actTable : Option (List (String × ActivityPath)) :=
    match request.activity with
    | none => none
    | some a => alookup fm.action_paths a
  match alookup fm.robots robot_name with
  | none => .ok (failResp, fm, [])
  | some robot =>
    match actTable with
    | none => .ok (failResp, fm, [])
    | some labels =>
      match (match request.label with
             | none => none
             | some l => alookup labels l) with
      | none => .ok (failResp, fm, [])
      | some activity_path =>
        match robot.state with
        | none => .error .attributeError
        | some st =>
          let cur := st.location
          let wps : List Location := activity_path.path.map (fun wp =>
            { x := wp.1, y := wp.2.1, yaw := wp.2.2,
              level_name := some activity_path.map_name })
          -- target_loc = Location() before the loop; the loop leaves it
          -- at the last waypoint when the path is non-empty.
          let target_loc : Location := (wps.getLast?).getD {}
          let path_request : PathRequest :=
            { fleet_name := fm.fleet_name
              robot_name := robot_name
              path := cur :: wps
              task_id := toString cmd_id }
          let robot1 : State :=
            { robot with last_path_request := some path_request
                         destination := some target_loc }
          .ok (okResp,
               { fm with robots := aupdate fm.robots robot_name robot1 },
               [path_request])

/-- The toggle_teleop endpoint.  The Python stores mode.toggle itself
(possibly None); only its truthiness is ever read back, so the record
stores the truth value. -/
def toggle_teleop (fm : FleetManager) (robot_name : String) (mode : Request) :
    Except PyErr (Resp × FleetManager) :=
  match alookup fm.robots robot_name with
  | none => .ok (failResp, fm)
  | some robot =>
    let robot1 : State := { robot with perform_action_mode := pyTruthy mode.toggle }
    .ok (okResp, { fm with robots := aupdate fm.robots robot_name robot1 })

/-- The toggle_attach endpoint: publishes one ModeRequest on mode_pub. -/
def toggle_attach (fm : FleetManager) (robot_name : String) (cmd_id : Int)
    (mode : Request) :
    Except PyErr (Resp × FleetManager × List ModeRequestMsg) :=
  match alookup fm.robots robot_name with
  | none => .ok (failResp, fm, [])
  | some _ =>
    let action : String :=
      if pyTruthy mode.toggle then "attach_cart" else "detach_cart"
    let msg := make_mode_request fm robot_name cmd_id MODE_PERFORMING_ACTION action
    .ok (okResp, fm, [msg])

/-- A dock entry (rmf_fleet_msgs/DockParameter). -/
structure DockParam where
  start : String := ""
  finish : String := ""
  path : List Location := []
deriving DecidableEq, Repr

/-- One fleet's docks inside a DockSummary. -/
structure DockEntry where
  fleet_name : String := ""
  params : List DockParam := []
deriving DecidableEq, Repr

/-- rmf_fleet_msgs/DockSummary. -/
structure DockSummaryMsg where
  docks : List DockEntry := []
deriving DecidableEq, Repr

/-- FleetManager.dock_summary_cb.  self.docks[dock.start] = dock.path is
an AttributeError whenever self.docks was never initialized (which
FleetManager.__init__ indeed never does). -/
def dock_summary_cb (fm : FleetManager) (msg : DockSummaryMsg) :
    Except PyErr FleetManager :=
  msg.docks.foldlM (fun acc fleet =>
    if fleet.fleet_name = acc.fleet_name then
      fleet.params.foldlM (fun acc2 dock =>
        match acc2.docks with
        | none => .error .attributeError
        | some t => .ok { acc2 with docks := some (dset t dock.start dock.path) })
        acc
    else .ok acc) fm

/-- The data dict built by FleetManager.get_robot_state. -/
structure GrsData where
  robot_name : String
  map_name : Option String
  position : ℚ × ℚ
  yaw : ℚ
  battery : ℚ
  destination_arrival : Option (Int × ℝ)
  last_completed_request : Option Int
  replan : Bool

/-- Result of one FleetManager.get_robot_state call: the data dict plus
whatever was published on action_completed_pub and mode_pub during the
call. -/
structure GrsOut where
  data : GrsData
  action_pubs : List ModeRequestMsg
  mode_pubs : List ModeRequestMsg

/-- FleetManager.get_robot_state.  Reads robot.state.location
(AttributeError while no report has arrived — its callers guard this),
computes the arrival estimate when both destination and
last_path_request are set (int(task_id) raising ValueError when the
stored task id is not numeric), derives replan from the reported mode,
and, when the reported mode is MODE_ACTION_COMPLETED, publishes one
idle-mode request (cmd id 0) on both action_completed_pub and mode_pub. -/
noncomputable def get_robot_state (fm : FleetManager) (robot : State)
    (robot_name : String) : Except PyErr GrsOut :=
  match robot.state with
  | none => .error .attributeError
  | some st =>
    let position : ℚ × ℚ :=
      if fm.gps then robot.gps_pos else (st.location.x, st.location.y)
    let angle : ℚ := st.location.yaw
    let replan : Bool :=
      decide (st.mode.mode = MODE_WAITING ∨ st.mode.mode = MODE_ADAPTER_ERROR)
    let pubs : List ModeRequestMsg :=
      if st.mode.mode = MODE_ACTION_COMPLETED then
        [make_mode_request fm robot_name 0 MODE_IDLE ""]
      else []
    match robot.destination, robot.last_path_request with
    | some destination, some pr =>
      (match pyInt? pr.task_id with
       | none => .error .valueError
       | some cmd_id =>
         let p2 : ℚ × ℚ :=
           if fm.gps then (position.1 - fm.offset.1, position.2 - fm.offset.2)
           else position
         let dist_to_target : ℝ := disp p2 (destination.x, destination.y)
         let ori0 : ℝ := ((|(|angle| - |destination.yaw|)| : ℚ) : ℝ)
         let ori1 : ℝ := if ori0 > Real.pi then ori0 - 2 * Real.pi else ori0
         let ori2 : ℝ := if ori1 < -Real.pi then 2 * Real.pi + ori1 else ori1
         let duration : ℝ :=
           dist_to_target / (fm.linear_velocity : ℝ) +
             ori2 / (fm.rotational_velocity : ℝ)
         .ok { data := { robot_name := robot_name
                         map_name := st.location.level_name
                         position := position
                         yaw := angle
                         battery := st.battery_percent
                         destination_arrival := some (cmd_id, duration)
                         last_completed_request := robot.last_completed_request
                         replan := replan }
               action_pubs := pubs
               mode_pubs := pubs })
    | _, _ =>
      .ok { data := { robot_name := robot_name
                      map_name := st.location.level_name
                      position := position
                      yaw := angle
                      battery := st.battery_percent
                      destination_arrival := none
                      last_completed_request := robot.last_completed_request
                      replan := replan }
            action_pubs := pubs
            mode_pubs := pubs }

/-- The Response built by the status endpoint: its success flag, the
all_robots listing (possibly partial, as accumulated before an early
failure return), the single-robot data, and the messages published as a
side effect of the get_robot_state calls it makes. -/
structure StatusOut where
  success : Bool
  all_robots : List GrsData
  single : Option GrsData
  action_pubs : List ModeRequestMsg
  mode_pubs : List ModeRequestMsg

/-- The loop of the status endpoint over every robot in the fleet table:
returns the failure response as soon as one robot has no state yet. -/
noncomputable def statusLoop (fm : FleetManager) :
    List (String × State) → List GrsData → List ModeRequestMsg →
    List ModeRequestMsg → Except PyErr StatusOut
  | [], acc, ap, mp => .ok ⟨true, acc, none, ap, mp⟩
  | (n, s) :: rest, acc, ap, mp =>
    match s.state with
    | none => .ok ⟨false, acc, none, ap, mp⟩
    | some _ =>
      match get_robot_state fm s n with
      | .error e => .error e
      | .ok out =>
        statusLoop fm rest (acc ++ [out.data]) (ap ++ out.action_pubs)
          (mp ++ out.mode_pubs)

/-- The status endpoint. -/
noncomputable def status (fm : FleetManager) (robot_name : Option String) :
    Except PyErr StatusOut :=
  match robot_name with
  | none => statusLoop fm fm.robots [] [] []
  | some n =>
    match alookup fm.robots n with
    | none => .ok ⟨false, [], none, [], []⟩
    | some s =>
      match s.state with
      | none => .ok ⟨false, [], none, [], []⟩
      | some _ =>
        match get_robot_state fm s n with
        | .error e => .error e
        | .ok out => .ok ⟨true, [], some out.data, out.action_pubs, out.mode_pubs⟩

/-
Theorems.
-/

/-- C1: for a robot record whose lastCommand (last_path_request) is
present and whose actionMode is false, an inbound state report with a
different correlation id leaves the whole manager state unchanged,
publishes exactly the last command on the path channel, publishes
nothing else, and raises no completion signal. -/
theorem stale_report_republishes_last_command (fm : FleetManager)
    (msg : RobotStateMsg) (r : State) (pr : PathRequest)
    (hr : alookup fm.robots msg.name = some r)
    (hl : r.last_path_request = some pr)
    (ham : r.perform_action_mode = false)
    (hmm : msg.task_id ≠ pr.task_id) :
    robot_state_cb fm msg = ⟨fm, [pr], [], [], none⟩ := by
  have hexp : r.is_expected_task_id msg.task_id = false := by
    simp [State.is_expected_task_id, hl, hmm]
  simp [robot_state_cb, hr, hexp, ham, hl]

def prA : PathRequest :=
  { fleet_name := "f", robot_name := "r1", path := [], task_id := "5" }

def rA : State := { last_path_request := some prA }

def fmA : FleetManager :=
  { fleet_name := "f", robots := [("r1", rA)],
    linear_velocity := 1, rotational_velocity := 1 }

def msgA : RobotStateMsg := { name := "r1", task_id := "4" }

theorem stale_report_republishes_last_command_witness :
    robot_state_cb fmA msgA = ⟨fmA, [prA], [], [], none⟩ :=
  stale_report_republishes_last_command fmA msgA rA prA (by decide) (by decide)
    (by decide) (by decide)

/-- C6: with a command outstanding (last_path_request and destination
both set), a report whose correlation id matches and whose mode is
neither idle nor charging replaces the stored reported state with the
new report and leaves destination, last_path_request and
last_completed_request untouched. -/
theorem matching_report_updates_reported_state (fm : FleetManager)
    (msg : RobotStateMsg) (r : State) (pr : PathRequest) (d : Location)
    (hr : alookup fm.robots msg.name = some r)
    (hl : r.last_path_request = some pr)
    (hd : r.destination = some d)
    (htask : msg.task_id = pr.task_id)
    (h1 : msg.mode.mode ≠ MODE_IDLE) (h2 : msg.mode.mode ≠ MODE_CHARGING) :
    robot_state_cb fm msg =
      ⟨{ fm with robots := aupdate fm.robots msg.name { r with state := some msg } },
        [], [], [], none⟩ := by
  have hexp : r.is_expected_task_id msg.task_id = true := by
    simp [State.is_expected_task_id, hl, htask]
  simp [robot_state_cb, hr, hexp, h1, h2]

def dB : Location := { x := 3, y := 4 }

def prB : PathRequest :=
  { fleet_name := "f", robot_name := "r1", path := [dB], task_id := "5" }

def rB : State := { last_path_request := some prB, destination := some dB }

def fmB : FleetManager :=
  { fleet_name := "f", robots := [("r1", rB)],
    linear_velocity := 1, rotational_velocity := 1 }

def msgB : RobotStateMsg :=
  { name := "r1", task_id := "5", mode := { mode := MODE_MOVING }, path := [dB] }

theorem matching_report_updates_reported_state_witness :
    robot_state_cb fmB msgB =
      ⟨{ fmB with robots := aupdate fmB.robots msgB.name { rB with state := some msgB } },
        [], [], [], none⟩ :=
  matching_report_updates_reported_state fmB msgB rB prB dB (by decide)
    (by decide) (by decide) (by decide) (by decide) (by decide)

/-- The robot record after a completion-detecting report: state
replaced, destination cleared, parsed id recorded. -/
def completedState (r : State) (msg : RobotStateMsg) : State :=
  { r with state := some msg, destination := none,
           last_completed_request := some (digitsVal msg.task_id : Int) }

theorem completedState_is_expected (r : State) (msg : RobotStateMsg)
    (t : String) :
    (completedState r msg).is_expected_task_id t = r.is_expected_task_id t :=
  rfl

/-- C2: when the staleness guard passes and the report has mode idle or
charging, an empty remaining path and a non-empty all-digit correlation
id, the callback clears destination and records the parsed id as
last_completed_request; the newly-completed signal fires exactly when
the id is new, and reprocessing the identical report changes nothing
and raises no signal. -/
theorem completion_detection_edge_triggered (fm : FleetManager)
    (msg : RobotStateMsg) (r : State)
    (hr : alookup fm.robots msg.name = some r)
    (hpass : r.is_expected_task_id msg.task_id = true
      ∨ r.perform_action_mode = true)
    (hmode : msg.mode.mode = MODE_IDLE ∨ msg.mode.mode = MODE_CHARGING)
    (hpath : msg.path = []) (hne : msg.task_id ≠ "")
    (hdig : isdigitStr msg.task_id = true) :
    robot_state_cb fm msg =
      ⟨{ fm with robots := aupdate fm.robots msg.name (completedState r msg) },
        [], [], [],
        if r.last_completed_request ≠ some (digitsVal msg.task_id : Int)
        then some (digitsVal msg.task_id : Int) else none⟩
    ∧ robot_state_cb (robot_state_cb fm msg).fm msg =
        ⟨(robot_state_cb fm msg).fm, [], [], [], none⟩ := by
  have hguard : ¬ (r.is_expected_task_id msg.task_id = false
      ∧ r.perform_action_mode = false) := by
    rcases hpass with h | h <;> simp [h]
  have hcomp : (msg.mode.mode = MODE_IDLE ∨ msg.mode.mode = MODE_CHARGING)
      ∧ msg.path = [] ∧ msg.task_id ≠ "" ∧ isdigitStr msg.task_id = true :=
    ⟨hmode, hpath, hne, hdig⟩
  have h1 : robot_state_cb fm msg =
      ⟨{ fm with robots := aupdate fm.robots msg.name (completedState r msg) },
        [], [], [],
        if r.last_completed_request ≠ some (digitsVal msg.task_id : Int)
        then some (digitsVal msg.task_id : Int) else none⟩ := by
    simp only [robot_state_cb, hr]
    rw [if_neg hguard, if_pos hcomp]
    rfl
  refine ⟨h1, ?_⟩
  rw [h1]
  have hr1 : alookup (aupdate fm.robots msg.name (completedState r msg))
      msg.name = some (completedState r msg) :=
    alookup_aupdate fm.robots msg.name _ r hr
  have hguard1 : ¬ ((completedState r msg).is_expected_task_id msg.task_id = false
      ∧ (completedState r msg).perform_action_mode = false) := hguard
  simp only [robot_state_cb, hr1]
  rw [if_neg hguard1, if_pos hcomp]
  simp only [aupdate_aupdate]
  simp [completedState]

def rC : State := {}

def fmC : FleetManager :=
  { fleet_name := "f", robots := [("r1", rC)],
    linear_velocity := 1, rotational_velocity := 1 }

def msgC : RobotStateMsg :=
  { name := "r1", task_id := "7", mode := { mode := MODE_IDLE }, path := [] }

theorem completion_detection_edge_triggered_witness :
    (robot_state_cb fmC msgC =
      ⟨{ fmC with robots := aupdate fmC.robots msgC.name (completedState rC msgC) },
        [], [], [],
        if rC.last_completed_request ≠ some (digitsVal msgC.task_id : Int)
        then some (digitsVal msgC.task_id : Int) else none⟩)
    ∧ robot_state_cb (robot_state_cb fmC msgC).fm msgC =
        ⟨(robot_state_cb fmC msgC).fm, [], [], [], none⟩ :=
  completion_detection_edge_triggered fmC msgC rC (by decide) (Or.inl (by decide))
    (Or.inl (by decide)) (by decide) (by decide) (by decide)

/-- C5: navigate for a robot name outside the roster returns the failure
response, leaves the whole manager (hence every robot record) unchanged,
and publishes nothing. -/
theorem navigate_unknown_robot_no_effect (fm : FleetManager)
    (robot_name : String) (cmd_id : Int) (dest : Request) (now : Time)
    (h : alookup fm.robots robot_name = none) :
    navigate fm robot_name cmd_id dest now = .ok (failResp, fm, []) := by
  simp [navigate, h]

theorem navigate_unknown_robot_no_effect_witness :
    navigate fmA "ghost" 9 {} {} = .ok (failResp, fmA, []) :=
  navigate_unknown_robot_no_effect fmA "ghost" 9 {} {} (by decide)

/-- A robot record all of whose stored commands carry a correlation id
that Python int() can parse; every record written by the dispatcher
operations satisfies this, since they store task_id = str(cmd_id). -/
def numericCommands (r : State) : Prop :=
  ∀ pr, r.last_path_request = some pr → (pyInt? pr.task_id).isSome

def fmD : FleetManager :=
  { fleet_name := "f", robots := [("r1", State.init)],
    linear_velocity := 1, rotational_velocity := 1 }

def msgD : RobotStateMsg :=
  { name := "r1", task_id := "", mode := { mode := MODE_ACTION_COMPLETED } }

/-- C3 counterexample: processing a state report whose mode is
action-completed through the state-report callback publishes nothing on
the mode-request channel and nothing on the action-completed channel, so
the claimed publication does not happen on state observation. -/
theorem action_completed_report_publishes_nothing :
    msgD.mode.mode = MODE_ACTION_COMPLETED
    ∧ (robot_state_cb fmD msgD).mode_pubs = []
    ∧ (robot_state_cb fmD msgD).action_pubs = [] := by decide

/-- C3 amended: the state-report callback never publishes on the
mode-request or action-completed channels; the publication happens in
get_robot_state (reached only through the status read endpoint): when
the stored reported mode is action-completed, it publishes one
mode-change command with correlation id 0 commanding idle, the same
message going to the mode-request channel and the dedicated
action-execution-finished channel. -/
theorem action_completed_publishes_on_status_read :
    (∀ (fm : FleetManager) (msg : RobotStateMsg),
        (robot_state_cb fm msg).mode_pubs = []
        ∧ (robot_state_cb fm msg).action_pubs = [])
    ∧ (∀ (fm : FleetManager) (r : State) (n : String) (st : RobotStateMsg),
        r.state = some st → st.mode.mode = MODE_ACTION_COMPLETED →
        numericCommands r →
        Except.map (fun o => (o.action_pubs, o.mode_pubs)) (get_robot_state fm r n)
          = .ok ([make_mode_request fm n 0 MODE_IDLE ""],
                 [make_mode_request fm n 0 MODE_IDLE ""])) := by
  constructor
  · intro fm msg
    cases h : alookup fm.robots msg.name with
    | none => simp [robot_state_cb, h]
    | some r =>
      by_cases hg : (r.is_expected_task_id msg.task_id = false
          ∧ r.perform_action_mode = false)
      · cases hl : r.last_path_request <;> simp [robot_state_cb, h, hg, hl]
      · by_cases hc : ((msg.mode.mode = MODE_IDLE ∨ msg.mode.mode = MODE_CHARGING)
            ∧ msg.path = [] ∧ msg.task_id ≠ "" ∧ isdigitStr msg.task_id = true) <;>
          simp [robot_state_cb, h, hg, hc]
  · intro fm r n st hst hmode hnum
    rcases hd : r.destination with _ | d
    · simp [get_robot_state, hst, hd, hmode, Except.map]
    · rcases hl : r.last_path_request with _ | pr
      · simp [get_robot_state, hst, hd, hl, hmode, Except.map]
      · have hsome := hnum pr hl
        rcases hp : pyInt? pr.task_id with _ | cid
        · rw [hp] at hsome; simp at hsome
        · simp [get_robot_state, hst, hd, hl, hp, hmode, Except.map]

def stE : RobotStateMsg :=
  { name := "r1", task_id := "", mode := { mode := MODE_ACTION_COMPLETED } }

def rE : State := { state := some stE }

def fmE : FleetManager :=
  { fleet_name := "f", robots := [("r1", rE)],
    linear_velocity := 1, rotational_velocity := 1 }

theorem action_completed_publishes_on_status_read_witness :
    Except.map (fun o => (o.action_pubs, o.mode_pubs)) (get_robot_state fmE rE "r1")
      = .ok ([make_mode_request fmE "r1" 0 MODE_IDLE ""],
             [make_mode_request fmE "r1" 0 MODE_IDLE ""]) :=
  action_completed_publishes_on_status_read.2 fmE rE "r1" stE rfl (by decide)
    (by intro pr h; simp [rE] at h)

/-- C4 counterexample: navigate for a robot that is in the roster but
with a request whose destination is missing (None) raises a TypeError
(len(None) in the guard) instead of returning an unsuccessful
response. -/
theorem navigate_missing_destination_raises :
    navigate fmA "r1" 1 {} {} = .error .typeError := by
  simp [navigate, fmA, rA, prA, alookup]

/-- True when the modelled Python call returns instead of raising. -/
def isOkE {e a : Type} : Except e a → Bool
  | .ok _ => true
  | .error _ => false

/-- C4 amended: the toggle operations always return a response, and every
write operation fails closed with an unsuccessful response for an
unknown robot; but navigate raises TypeError when the destination is
None, KeyError when a coordinate key is missing, and navigate, stop and
start_activity raise AttributeError when the robot has not yet sent its
first state report. -/
theorem write_ops_respond_or_raise :
    (∀ (fm : FleetManager) (n : String) (m : Request),
        isOkE (toggle_teleop fm n m) = true)
    ∧ (∀ (fm : FleetManager) (n : String) (cid : Int) (m : Request),
        isOkE (toggle_attach fm n cid m) = true)
    ∧ (∀ (fm : FleetManager) (n : String) (cid : Int) (dest : Request) (now : Time),
        alookup fm.robots n = none →
        navigate fm n cid dest now = .ok (failResp, fm, []))
    ∧ (∀ (fm : FleetManager) (n : String) (rc sc : Int),
        alookup fm.robots n = none → stop fm n rc sc = .ok (failResp, fm, []))
    ∧ (∀ (fm : FleetManager) (n : String) (cid : Int) (req : Request),
        alookup fm.robots n = none →
        start_activity fm n cid req = .ok (failResp, fm, []))
    ∧ (∀ (fm : FleetManager) (n : String) (cid : Int) (dest : Request) (now : Time) (r : State),
        alookup fm.robots n = some r → dest.destination = none →
        navigate fm n cid dest now = .error .typeError)
    ∧ (∀ (fm : FleetManager) (n : String) (cid : Int) (dest : Request) (now : Time)
        (r : State) (d : List (String × ℚ)),
        alookup fm.robots n = some r → dest.destination = some d →
        ¬ d.length < 1 → alookup d "x" = none →
        navigate fm n cid dest now = .error .keyError)
    ∧ (∀ (fm : FleetManager) (n : String) (cid : Int) (dest : Request) (now : Time)
        (r : State) (d : List (String × ℚ)) (tx ty tyaw : ℚ),
        alookup fm.robots n = some r → dest.destination = some d →
        ¬ d.length < 1 → alookup d "x" = some tx → alookup d "y" = some ty →
        alookup d "yaw" = some tyaw → r.state = none →
        navigate fm n cid dest now = .error .attributeError)
    ∧ (∀ (fm : FleetManager) (n : String) (rc sc : Int) (r : State),
        alookup fm.robots n = some r → r.state = none →
        stop fm n rc sc = .error .attributeError)
    ∧ (∀ (fm : FleetManager) (n : String) (cid : Int) (req : Request)
        (r : State) (a l : String) (tbl : List (String × ActivityPath)) (ap : ActivityPath),
        alookup fm.robots n = some r → req.activity = some a →
        alookup fm.action_paths a = some tbl → req.label = some l →
        alookup tbl l = some ap → r.state = none →
        start_activity fm n cid req = .error .attributeError) := by
  refine ⟨?_, ?_, ?_, ?_, ?_, ?_, ?_, ?_, ?_, ?_⟩
  · intro fm n m
    cases h : alookup fm.robots n <;> simp [toggle_teleop, h, isOkE]
  · intro fm n cid m
    cases h : alookup fm.robots n <;> simp [toggle_attach, h, isOkE]
  · intro fm n cid dest now h
    simp [navigate, h]
  · intro fm n rc sc h
    simp [stop, h]
  · intro fm n cid req h
    simp [start_activity, h]
  · intro fm n cid dest now r h hd
    simp [navigate, h, hd]
  · intro fm n cid dest now r d h hd hlen hx
    simp [navigate, h, hd, hlen, hx]
  · intro fm n cid dest now r d tx ty tyaw h hd hlen hx hy hyaw hst
    simp [navigate, h, hd, hlen, hx, hy, hyaw, hst]
  · intro fm n rc sc r h hst
    simp [stop, h, hst]
  · intro fm n cid req r a l tbl ap h ha htbl hl hap hst
    simp [start_activity, h, ha, htbl, hl, hap, hst]

theorem write_ops_respond_or_raise_witness :
    isOkE (toggle_teleop fmA "r1" {}) = true
    ∧ navigate fmA "ghost" 1 {} {} = .ok (failResp, fmA, [])
    ∧ navigate fmA "r1" 1 {} {} = .error .typeError
    ∧ stop fmA "r1" 1 2 = .error .attributeError :=
  ⟨write_ops_respond_or_raise.1 fmA "r1" {},
   write_ops_respond_or_raise.2.2.1 fmA "ghost" 1 {} {} (by decide),
   write_ops_respond_or_raise.2.2.2.2.2.1 fmA "r1" 1 {} {} rA (by decide) rfl,
   write_ops_respond_or_raise.2.2.2.2.2.2.2.2.1 fmA "r1" 1 2 rA (by decide) (by decide)⟩

/-- In every successful get_robot_state read, the replan field equals the
waiting-or-adapter-error test on the stored mode. -/
theorem get_robot_state_replan (fm : FleetManager) (r : State) (n : String)
    (st : RobotStateMsg) (out : GrsOut) (hst : r.state = some st)
    (hok : get_robot_state fm r n = .ok out) :
    out.data.replan =
      decide (st.mode.mode = MODE_WAITING ∨ st.mode.mode = MODE_ADAPTER_ERROR) := by
  rcases hd : r.destination with _ | d
  · rcases hl : r.last_path_request with _ | pr <;>
    · simp [get_robot_state, hst, hd, hl] at hok
      simp [← hok]
  · rcases hl : r.last_path_request with _ | pr
    · simp [get_robot_state, hst, hd, hl] at hok
      simp [← hok]
    · rcases hp : pyInt? pr.task_id with _ | cid <;>
        simp [get_robot_state, hst, hd, hl, hp] at hok
      simp [← hok]

/-- C7: replan is derived on each get_robot_state read as exactly
(stored mode = waiting or adapter-error); a freshly constructed record
has no commandedDestination; the state-report callback never sets a
destination on a record whose destination is absent; and replan reads
false whenever the stored mode is neither trigger mode. -/
theorem replan_derived_not_stored :
    (∀ (fm : FleetManager) (r : State) (n : String) (st : RobotStateMsg) (out : GrsOut),
        r.state = some st → get_robot_state fm r n = .ok out →
        (out.data.replan = true ↔
          (st.mode.mode = MODE_WAITING ∨ st.mode.mode = MODE_ADAPTER_ERROR)))
    ∧ State.init.destination = none
    ∧ (∀ (fm : FleetManager) (msg : RobotStateMsg) (r : State),
        alookup fm.robots msg.name = some r → r.destination = none →
        ∀ r', alookup (robot_state_cb fm msg).fm.robots msg.name = some r' →
          r'.destination = none)
    ∧ (∀ (fm : FleetManager) (r : State) (n : String) (st : RobotStateMsg) (out : GrsOut),
        r.state = some st → st.mode.mode ≠ MODE_WAITING →
        st.mode.mode ≠ MODE_ADAPTER_ERROR →
        get_robot_state fm r n = .ok out → out.data.replan = false) := by
  refine ⟨?_, rfl, ?_, ?_⟩
  · intro fm r n st out hst hok
    rw [get_robot_state_replan fm r n st out hst hok]
    simp
  · intro fm msg r hr hd r' hr'
    by_cases hg : (r.is_expected_task_id msg.task_id = false
        ∧ r.perform_action_mode = false)
    · rcases hl : r.last_path_request with _ | pr <;>
      · simp [robot_state_cb, hr, hg, hl] at hr'
        rw [← hr']
        exact hd
    · by_cases hc : ((msg.mode.mode = MODE_IDLE ∨ msg.mode.mode = MODE_CHARGING)
          ∧ msg.path = [] ∧ msg.task_id ≠ "" ∧ isdigitStr msg.task_id = true)
      · simp [robot_state_cb, hr, hg, hc] at hr'
        rw [alookup_aupdate fm.robots msg.name _ r hr] at hr'
        injection hr' with h
        rw [← h]
      · simp [robot_state_cb, hr, hg, hc] at hr'
        rw [alookup_aupdate fm.robots msg.name _ r hr] at hr'
        injection hr' with h
        rw [← h]
        exact hd
  · intro fm r n st out hst h1 h2 hok
    rw [get_robot_state_replan fm r n st out hst hok]
    simp [h1, h2]

def stF : RobotStateMsg := { name := "r1", mode := { mode := MODE_MOVING } }

def rF : State := { state := some stF }

def fmF : FleetManager :=
  { fleet_name := "f", robots := [("r1", rF)],
    linear_velocity := 1, rotational_velocity := 1 }

def outF : GrsOut :=
  { data := { robot_name := "r1", map_name := none, position := (0, 0),
              yaw := 0, battery := 0, destination_arrival := none,
              last_completed_request := none, replan := false },
    action_pubs := [], mode_pubs := [] }

theorem replan_derived_not_stored_witness : outF.data.replan = false :=
  replan_derived_not_stored.2.2.2 fmF rF "r1" stF outF rfl (by decide)
    (by decide) rfl

/-- C8: the destination_arrival field of a get_robot_state read is absent
whenever no destination is stored, and is exactly (cmd id, duration 0)
when the stored destination pose coincides with the current reported
pose (non-gps fleet; the velocity limits are positive as in any real
configuration, where Python would otherwise raise ZeroDivisionError). -/
theorem arrival_estimate_absent_or_zero :
    (∀ (fm : FleetManager) (r : State) (n : String) (st : RobotStateMsg),
        r.state = some st → r.destination = none →
        Except.map (fun o => o.data.destination_arrival) (get_robot_state fm r n)
          = .ok none)
    ∧ (∀ (fm : FleetManager) (r : State) (n : String) (st : RobotStateMsg)
        (d : Location) (pr : PathRequest) (cid : Int),
        fm.gps = false → r.state = some st → r.destination = some d →
        r.last_path_request = some pr → pyInt? pr.task_id = some cid →
        d.x = st.location.x → d.y = st.location.y → d.yaw = st.location.yaw →
        0 < fm.linear_velocity → 0 < fm.rotational_velocity →
        Except.map (fun o => o.data.destination_arrival) (get_robot_state fm r n)
          = .ok (some (cid, (0 : ℝ)))) := by
  constructor
  · intro fm r n st hst hd
    rcases hl : r.last_path_request with _ | pr <;>
      simp [get_robot_state, hst, hd, hl, Except.map]
  · intro fm r n st d pr cid hgps hst hdst hl hp hx hy hyaw hv hw
    have habs : (|(|st.location.yaw| - |d.yaw|)| : ℚ) = 0 := by
      rw [hyaw]; simp
    have hpi1 : ¬ (Real.pi < (0 : ℝ)) := not_lt.mpr Real.pi_nonneg
    have hpi2 : ¬ ((0 : ℝ) < -Real.pi) :=
      not_lt.mpr (neg_nonpos.mpr Real.pi_nonneg)
    simp [get_robot_state, hst, hdst, hl, hp, hgps, Except.map, hx, hy, habs,
      disp, hpi1, hpi2]

def stG : RobotStateMsg :=
  { name := "r1", location := { x := 1, y := 2, yaw := 3 } }

def dG : Location := { x := 1, y := 2, yaw := 3 }

def prG : PathRequest :=
  { fleet_name := "f", robot_name := "r1", path := [dG], task_id := "6" }

def rG : State :=
  { state := some stG, destination := some dG, last_path_request := some prG }

def fmG : FleetManager :=
  { fleet_name := "f", robots := [("r1", rG)],
    linear_velocity := 1, rotational_velocity := 1 }

theorem arrival_estimate_absent_or_zero_witness :
    Except.map (fun o => o.data.destination_arrival) (get_robot_state fmG rG "r1")
      = .ok (some ((6 : Int), (0 : ℝ))) :=
  arrival_estimate_absent_or_zero.2 fmG rG "r1" stG dG prG 6 rfl rfl rfl rfl
    (by decide) rfl rfl rfl (by norm_num [fmG]) (by norm_num [fmG])

def locH : Location := { x := 5, y := 6 }

def dockMsgH : DockSummaryMsg :=
  { docks := [{ fleet_name := "f", params := [{ start := "d1", path := [locH] }] },
              { fleet_name := "other", params := [{ start := "d2", path := [] }] }] }

def dockMsgH2 : DockSummaryMsg :=
  { docks := [{ fleet_name := "other", params := [{ start := "d2", path := [] }] }] }

def fmH : FleetManager := FleetManager.init "f" ["r1"] 1 1

/-- C9: on a freshly constructed manager, dock_summary_cb raises
AttributeError at the first dock entry of this fleet because __init__
never initializes self.docks; had the table been initialized, the same
message folds the entry keyed by its start name into the table, and a
summary naming only other fleets is ignored without error. -/
theorem dock_summary_uninitialized_table :
    dock_summary_cb fmH dockMsgH = .error .attributeError
    ∧ dock_summary_cb { fmH with docks := some [] } dockMsgH
        = .ok { fmH with docks := some [("d1", [locH])] }
    ∧ dock_summary_cb fmH dockMsgH2 = .ok fmH := by
  refine ⟨rfl, rfl, rfl⟩

/-- A successful read is guaranteed whenever the robot has reported and
its stored command ids are numeric. -/
theorem get_robot_state_isOk (fm : FleetManager) (r : State) (n : String)
    (st : RobotStateMsg) (hst : r.state = some st)
    (hnum : numericCommands r) : isOkE (get_robot_state fm r n) = true := by
  rcases hd : r.destination with _ | d
  · rcases hl : r.last_path_request with _ | pr <;>
      simp [get_robot_state, hst, hd, hl, isOkE]
  · rcases hl : r.last_path_request with _ | pr
    · simp [get_robot_state, hst, hd, hl, isOkE]
    · rcases hp : pyInt? pr.task_id with _ | cid
      · have hs := hnum pr hl
        rw [hp] at hs
        simp at hs
      · simp [get_robot_state, hst, hd, hl, hp, isOkE]

theorem statusLoop_unreported (fm : FleetManager) :
    ∀ (l : List (String × State)) (acc : List GrsData)
      (ap mp : List ModeRequestMsg),
      (∀ p ∈ l, numericCommands p.2) →
      (∃ p ∈ l, p.2.state = none) →
      Except.map StatusOut.success (statusLoop fm l acc ap mp) = .ok false := by
  intro l
  induction l with
  | nil =>
    intro acc ap mp _ hex
    simp at hex
  | cons p rest ih =>
    intro acc ap mp hnum hex
    obtain ⟨n0, s0⟩ := p
    rcases hst : s0.state with _ | st
    · simp [statusLoop, hst, Except.map]
    · have hex' : ∃ q ∈ rest, q.2.state = none := by
        rcases hex with ⟨q, hq, hqs⟩
        rcases List.mem_cons.mp hq with h | h
        · rw [h] at hqs
          simp only at hqs
          rw [hst] at hqs
          cases hqs
        · exact ⟨q, h, hqs⟩
      have hoknum : numericCommands s0 := hnum (n0, s0) (List.mem_cons_self _ _)
      have hok : isOkE (get_robot_state fm s0 n0) = true :=
        get_robot_state_isOk fm s0 n0 st hst hoknum
      rcases hgr : get_robot_state fm s0 n0 with e | out
      · rw [hgr] at hok
        simp [isOkE] at hok
      · simp only [statusLoop, hst, hgr]
        exact ih _ _ _ (fun q hq => hnum q (List.mem_cons_of_mem _ hq)) hex'

/-- C10: the aggregate status listing returns success = false as soon as
any robot of the roster has not yet reported (the loop aborts at the
first such robot even when every other robot has reported); the
numericCommands hypothesis records that every stored command id parses,
which holds for everything the dispatcher writes. -/
theorem status_all_requires_all_reported (fm : FleetManager)
    (hnum : ∀ p ∈ fm.robots, numericCommands p.2)
    (hex : ∃ p ∈ fm.robots, p.2.state = none) :
    Except.map StatusOut.success (status fm none) = .ok false := by
  simp only [status]
  exact statusLoop_unreported fm fm.robots [] [] [] hnum hex

def fmK : FleetManager :=
  { fleet_name := "f", robots := [("a", rF), ("b", State.init)],
    linear_velocity := 1, rotational_velocity := 1 }

theorem status_all_requires_all_reported_witness :
    Except.map StatusOut.success (status fmK none) = .ok false :=
  status_all_requires_all_reported fmK
    (by
      intro p hp pr hpr
      fin_cases hp <;> simp [rF, State.init] at hpr)
    ⟨("b", State.init), by decide, rfl⟩

end RmfDemos
